import Mathlib

/-!
Shallow embedding of the inaturalist-photo-scraper crawl engine.

The embedded code is src/inaturalist/scraper.py (class
InaturalistPhotoScraper) together with the legacy variant src/scraper.py
(class iNatPhotoScraper). Line numbers in doc comments refer to those
files. Network calls are modelled by passing their results in as inputs;
the S3 logs bucket holding the progress record is modelled by threading
the record value through the state; raised Python exceptions are modelled
with Except.
-/

set_option autoImplicit false

/-- Python value that can appear in the data["uuids"] accumulator of the
scrapers. The accumulator is extended elementwise (`+=`, scraper.py line
481), so its elements are uuid strings, while the duplicate guard (line
477) tests membership of a whole uuid list in it. -/
inductive UuidsEntry where
  | str : String → UuidsEntry
  | strList : List String → UuidsEntry
deriving DecidableEq, Repr

/-- Python equality between accumulator entries: a list is never equal to a
string. -/
def entryEq : UuidsEntry → UuidsEntry → Bool
  | UuidsEntry.str a, UuidsEntry.str b => a == b
  | UuidsEntry.strList a, UuidsEntry.strList b => a == b
  | _, _ => false

/-- Python membership test `x in xs` over the uuids accumulator: compare
the candidate against each element. -/
def pyIn (x : UuidsEntry) (xs : List UuidsEntry) : Bool :=
  xs.any (entryEq x)

/-- The in-memory accumulators initialised in the scraper constructors
(src/inaturalist/scraper.py lines 52-57, src/scraper.py lines 40-45).
Raw observation payloads are modelled as strings. -/
structure RunData where
  uuids : List UuidsEntry
  observations : List String
  failed_observations : List String
  failed_downloads : List String
deriving DecidableEq, Repr

def emptyData : RunData := ⟨[], [], [], []⟩

/-- A value stored in the persisted progress record: either a bare status
string or a per-year page table (scraper.py lines 295-317 create both
shapes). -/
inductive ProgressVal where
  | status : String → ProgressVal
  | table : List (String × String) → ProgressVal
deriving DecidableEq, Repr

abbrev Progress := List (String × ProgressVal)

/-- Python dict lookup on an insertion-ordered association list. -/
def dictGet {α : Type} : List (String × α) → String → Option α
  | [], _ => none
  | (k2, v) :: rest, k => if k2 = k then some v else dictGet rest k

/-- Python dict assignment: overwrite the value in place if the key
exists, otherwise append the new key at the end. -/
def dictSet {α : Type} : List (String × α) → String → α → List (String × α)
  | [], k, v => [(k, v)]
  | (k2, v2) :: rest, k, v =>
    if k2 = k then (k2, v) :: rest else (k2, v2) :: dictSet rest k v

/-- The fields of InaturalistPhotoScraper that the page loop reads or
writes. The progress record held in the S3 logs bucket is modelled as the
progress field (get_object and put_object round-trips become reads and
writes of this field) and hasLogsBucket models whether the environment
variable S3_LOGS_BUCKET_NAME is set. -/
structure ScraperState where
  stop_at_page : Option Nat
  one_page_only : Bool
  hasLogsBucket : Bool
  is_large_results : Bool
  resume_from_page : Nat
  resume_from_uuid_index : Nat
  start_year : Option Nat
  data : RunData
  progress : Progress
deriving DecidableEq, Repr

/-- Embeds get_num_pages (src/inaturalist/scraper.py lines 162-176) and
the legacy _get_num_pages (src/scraper.py lines 114-118): the page count
is total_results // results_per_page + 1. -/
def get_num_pages (total_results results_per_page : Nat) : Nat :=
  total_results / results_per_page + 1

/-- Modelled from the wording of the spec, for comparison with
get_num_pages: direct paging yields ceil(T / S) pages. -/
def specCeilPages (T S : Nat) : Nat := (T + S - 1) / S

/-- Embeds line 336: `year = str(self.start_year) if self.is_large_results
else None`. Python str(None) is the string "None". -/
def checkYearKey (s : ScraperState) : Option String :=
  if s.is_large_results then
    some (match s.start_year with
          | some y => toString y
          | none => "None")
  else none

/-- The progress_key lookup of check_progress (lines 365-368):
progress[year][page] in year mode, progress[page] otherwise. A missing
key is a KeyError and indexing a plain string raises, both modelled as
Except.error. In year mode the looked-up status string is wrapped as
ProgressVal.status so both modes compare alike. -/
def progressKeyOf (progress : Progress) (yearKey : Option String)
    (page : String) : Except Unit ProgressVal :=
  match yearKey with
  | some y =>
    match dictGet progress y with
    | some (ProgressVal.table t) =>
      match dictGet t page with
      | some st => Except.ok (ProgressVal.status st)
      | none => Except.error ()
    | some (ProgressVal.status _) => Except.error ()
    | none => Except.error ()
  | none =>
    match dictGet progress page with
    | some v => Except.ok v
    | none => Except.error ()

/-- Embeds check_progress (lines 319-382) on an existing progress record.
With mark_as_complete the status is written under progress[year][page] in
year mode and progress[page] otherwise (lines 338-349). In the begin path
a complete or in-progress page returns 1 without writing (lines 370-375);
otherwise the in-progress status is written to progress[page] at the TOP
level even in year mode (line 378 indexes by page only). -/
def check_progress (progress : Progress) (yearKey : Option String)
    (page : String) (mark_as_complete : Bool) :
    Except Unit (Option Nat × Progress) :=
  if mark_as_complete then
    match yearKey with
    | some y =>
      match dictGet progress y with
      | some (ProgressVal.table t) =>
        Except.ok (none, dictSet progress y
          (ProgressVal.table (dictSet t page "complete")))
      | _ => Except.error ()
    | none => Except.ok (none, dictSet progress page (ProgressVal.status "complete"))
  else
    match progressKeyOf progress yearKey page with
    | Except.error e => Except.error e
    | Except.ok pk =>
      if pk = ProgressVal.status "complete" then Except.ok (some 1, progress)
      else if pk = ProgressVal.status "in-progress" then Except.ok (some 1, progress)
      else Except.ok (none, dictSet progress page (ProgressVal.status "in-progress"))

/-- Embeds _write_progress_file (lines 295-317): the freshly created
record. In year mode each year of range(start_year, end_year + 1) maps to
a page table seeded pending for the keys of range(num_pages + 1);
otherwise a flat map seeded pending for the keys of range(num_pages). -/
def write_progress_file (by_year : Bool) (start_year end_year : Nat)
    (numPagesOf : Nat → Nat) (numPages : Nat) : Progress :=
  if by_year then
    (List.range' start_year (end_year + 1 - start_year)).map (fun y =>
      (toString y, ProgressVal.table
        ((List.range (numPagesOf y + 1)).map (fun k => (toString k, "pending")))))
  else
    (List.range numPages).map (fun k => (toString k, ProgressVal.status "pending"))

/-- Lines 452-453 of _parse: `self.start_year = year` and
`self.resume_from_page = page`. -/
def setCursor (s : ScraperState) (page : Nat) (year : Option Nat) : ScraperState :=
  { s with start_year := year, resume_from_page := page }

/-- Line 471 of _parse: append the page-level failure marker to the
failed observations ledger. -/
def addFailedPage (s : ScraperState) (page : Nat) : ScraperState :=
  { s with data := { s.data with
      failed_observations :=
        s.data.failed_observations ++ ["failed page: " ++ toString page] } }

/-- The observable outcome of one _parse call: final scraper state, the
Python return value (None, 1 or 2), the download_photos calls made
(uuid index, uuid), and whether check_progress(page, mark_as_complete=True)
ran. -/
structure ParseResult where
  state : ScraperState
  retCode : Option Nat
  downloads : List (Nat × String)
  markedComplete : Bool
deriving DecidableEq, Repr

def mkRes (s : ScraperState) (retCode : Option Nat)
    (downloads : List (Nat × String)) (marked : Bool) : ParseResult :=
  ⟨s, retCode, downloads, marked⟩

/-- The checkpoint-begin step of _parse (lines 455-460): when the logs
bucket is configured, consult check_progress; a result of 1 makes _parse
return early (1 under one_page_only, None otherwise). Sum.inl carries an
early return, Sum.inr the state to continue with. -/
def parseBegin (s1 : ScraperState) (page : Nat) :
    Except Unit (Sum ParseResult ScraperState) :=
  if s1.hasLogsBucket then
    match check_progress s1.progress (checkYearKey s1) (toString page) false with
    | Except.error e => Except.error e
    | Except.ok (some _, p1) =>
      let s2 := { s1 with progress := p1 }
      Except.ok (Sum.inl (mkRes s2 (if s2.one_page_only then some 1 else none) [] false))
    | Except.ok (none, p1) => Except.ok (Sum.inr { s1 with progress := p1 })
  else Except.ok (Sum.inr s1)

/-- Line 481 of _parse: `self.data["uuids"] += uuids`, extending the
accumulator elementwise with the uuid strings of the page. -/
def accUuids (s2 : ScraperState) (uuids : List String) : ScraperState :=
  { s2 with data := { s2.data with
      uuids := s2.data.uuids ++ uuids.map UuidsEntry.str } }

/-- The state after the observation loop (lines 484-485): the loop sets
resume_from_uuid_index to each enumerate index in turn, so it ends at
start index plus slice length minus one, and an empty slice leaves it
unchanged. -/
def afterLoop (s3 : ScraperState) (sliced : List String) : ScraperState :=
  if sliced.isEmpty then s3
  else { s3 with resume_from_uuid_index :=
           s3.resume_from_uuid_index + sliced.length - 1 }

/-- The tail of _parse from the uuid slicing on (lines 482-493): slice the
page uuids by resume_from_uuid_index, run the observation loop, then
either return 1 under one_page_only or, when the logs bucket is
configured, run _dump_logs, modelled by its final
check_progress(page, mark_as_complete=True) call (line 409). -/
def parseLoop (s3 : ScraperState) (page : Nat) (uuids : List String) :
    Except Unit ParseResult :=
  let sliced := uuids.drop s3.resume_from_uuid_index
  let downloads := List.enumFrom s3.resume_from_uuid_index sliced
  let s4 := afterLoop s3 sliced
  if s4.one_page_only then
    Except.ok (mkRes s4 (some 1) downloads false)
  else if s4.hasLogsBucket then
    match check_progress s4.progress (checkYearKey s4) (toString page) true with
    | Except.error e => Except.error e
    | Except.ok (_, p2) =>
      Except.ok (mkRes { s4 with progress := p2 } none downloads true)
  else
    Except.ok (mkRes s4 none downloads false)

/-- The body of _parse after the checkpoint-begin step (lines 461-493).
fetch is the result of get_observations: none models a failed or falsy
response, some us the uuid list of the results. An empty uuid list records
a page failure (lines 470-475); the duplicate guard is the membership test
of line 477. -/
def parseBody (s2 : ScraperState) (page : Nat)
    (fetch : Option (List String)) : Except Unit ParseResult :=
  match fetch with
  | none => Except.ok (mkRes s2 none [] false)
  | some uuids =>
    if uuids = [] then
      Except.ok (mkRes (addFailedPage s2 page)
        (if s2.one_page_only then some 1 else none) [] false)
    else if pyIn (UuidsEntry.strList uuids) s2.data.uuids then
      Except.ok (mkRes s2 none [] false)
    else
      parseLoop (accUuids s2 uuids) page uuids

/-- Embeds InaturalistPhotoScraper._parse (lines 432-493): the stop_at_page
check (lines 445-448), the cursor updates (lines 452-453), then the begin
step and the body. -/
def parse (s0 : ScraperState) (page : Nat) (year : Option Nat)
    (fetch : Option (List String)) : Except Unit ParseResult :=
  if s0.stop_at_page = some page then
    Except.ok (mkRes s0 (some 2) [] false)
  else
    match parseBegin (setCursor s0 page year) page with
    | Except.error e => Except.error e
    | Except.ok (Sum.inl r) => Except.ok r
    | Except.ok (Sum.inr s2) => parseBody s2 page fetch

/-- One processed page in a run trace. -/
structure PageStep where
  year : Option Nat
  page : Nat
  downloads : List (Nat × String)
  retCode : Option Nat
deriving DecidableEq, Repr

/-- Embeds the inner page loop shared by the two branches of run
(lines 532-538 and 542-548): parse each page of the precomputed range in
order and break as soon as the return code is 1 or 2. -/
def runPages (s : ScraperState) (year : Option Nat) (pages : List Nat)
    (fetch : Nat → Option (List String)) :
    Except Unit (ScraperState × List PageStep) :=
  match pages with
  | [] => Except.ok (s, [])
  | p :: rest =>
    match parse s p year (fetch p) with
    | Except.error e => Except.error e
    | Except.ok r =>
      let step : PageStep := ⟨year, p, r.downloads, r.retCode⟩
      if r.retCode = some 1 ∨ r.retCode = some 2 then
        Except.ok (r.state, [step])
      else
        match runPages r.state year rest fetch with
        | Except.error e => Except.error e
        | Except.ok (s2, steps) => Except.ok (s2, step :: steps)

/-- The years for which the year loop of run actually executes its body
(lines 522-524): iterate over range(start_year, end_year + 1) and break
as soon as the year equals end_year. -/
def runYears (start_year end_year : Nat) : List Nat :=
  (List.range' start_year (end_year + 1 - start_year)).takeWhile
    (fun y => y != end_year)

/-- One year of the year-partitioned loop (lines 525-538): look up the
page count for the year, slice range(num_pages) by the current
resume_from_page cursor and run the page loop on the slice. -/
def runYearStep (s : ScraperState) (y : Nat) (numPagesOf : Nat → Nat)
    (fetch : Nat → Nat → Option (List String)) :
    Except Unit (ScraperState × List PageStep) :=
  runPages s (some y) ((List.range (numPagesOf y)).drop s.resume_from_page) (fetch y)

/-- The year loop of run: process each year of runYears in order,
threading the scraper state; an inner break (return code 1 or 2) only
ends the inner page loop, the next year still runs. -/
def runLargeYears (s : ScraperState) (years : List Nat)
    (numPagesOf : Nat → Nat) (fetch : Nat → Nat → Option (List String)) :
    Except Unit (ScraperState × List PageStep) :=
  match years with
  | [] => Except.ok (s, [])
  | y :: ys =>
    match runYearStep s y numPagesOf fetch with
    | Except.error e => Except.error e
    | Except.ok (s2, steps) =>
      match runLargeYears s2 ys numPagesOf fetch with
      | Except.error e => Except.error e
      | Except.ok (s3, rest) => Except.ok (s3, steps ++ rest)

/-- Embeds the year-partitioned branch of run (lines 511-538), entered
when the total observation count exceeds 10000. numPagesOf y is the
result of get_num_pages scoped to year y and fetch y p the uuid list
returned for page p of year y. -/
def runLarge (s : ScraperState) (start_year end_year : Nat)
    (numPagesOf : Nat → Nat) (fetch : Nat → Nat → Option (List String)) :
    Except Unit (ScraperState × List PageStep) :=
  runLargeYears s (runYears start_year end_year) numPagesOf fetch

/-- Embeds the direct-paging branch of run (lines 540-548):
range(num_pages) sliced by resume_from_page, then the page loop. -/
def runSmall (s : ScraperState) (numPages : Nat)
    (fetch : Nat → Option (List String)) :
    Except Unit (ScraperState × List PageStep) :=
  runPages s none ((List.range numPages).drop s.resume_from_page) fetch

/-- Projection of a run result to the (page, downloads) trace. -/
def stepsView (r : Except Unit (ScraperState × List PageStep)) :
    Option (List (Nat × List (Nat × String))) :=
  (Except.toOption r).map (fun x => x.2.map (fun st => (st.page, st.downloads)))

/-- Embeds the suffix normalization of download_photos (lines 261-263 and
src/scraper.py lines 158-160): an empty or .jpeg suffix becomes .jpg. -/
def normalizeSuffix (suffix : String) : String :=
  if suffix = "" ∨ suffix = ".jpeg" then ".jpg" else suffix

/-- The (object key, object body) pair uploaded by the S3 branch of
InaturalistPhotoScraper.download_photos (lines 270 and 284-286): the key
is md5(photo bytes) hex digest plus the normalized suffix, but the body
handed to _put_object is json.dumps(self.data).encode(), not the photo
bytes. The md5 hex digest and the json serializer are abstract
parameters; content is the photo response bytes r.content. -/
def inatS3StoredPair (md5hex : List Nat → String)
    (jsonDumps : RunData → List Nat) (d : RunData)
    (content : List Nat) (suffix : String) : String × List Nat :=
  (md5hex content ++ normalizeSuffix suffix, jsonDumps d)

/-- The (filename, bytes) pair written by the local-filesystem branch
(lines 270 and 290-291): the photo bytes under md5(bytes) plus suffix. -/
def localStoredPair (md5hex : List Nat → String)
    (content : List Nat) (suffix : String) : String × List Nat :=
  (md5hex content ++ normalizeSuffix suffix, content)

/-- The (object key, object body) pair uploaded by the S3 branch of the
legacy variant (src/scraper.py lines 169-176): the body is r.content. -/
def legacyS3StoredPair (md5hex : List Nat → String)
    (content : List Nat) (suffix : String) : String × List Nat :=
  (md5hex content ++ normalizeSuffix suffix, content)

/-- The observation detail URL of download_photos (line 241-242). -/
def obsUrl (uuid : String) : String :=
  "https://www.inaturalist.org/observations/" ++ uuid ++ ".json"

/-- The observation-fetch prefix of InaturalistPhotoScraper.download_photos
(lines 241-250). On a failed fetch _get_request appends the url (line 157)
and download_photos appends the uuid (line 247) to the failed observations
ledger and returns; on success the payload joins the observations
accumulator (line 250). Photo handling is modelled by the stored-pair
definitions above. -/
def inatFetchStep (d : RunData) (uuid : String) (obs : Option String) : RunData :=
  match obs with
  | none => { d with failed_observations :=
      d.failed_observations ++ [obsUrl uuid, uuid] }
  | some payload => { d with observations := d.observations ++ [payload] }

/-- The per-page observation loop of the current variant: every uuid is
attempted; a fetch failure is swallowed by the early return inside
download_photos, so the function is total. Returns the final accumulators
and the uuids attempted. -/
def inatDownloadLoop (d : RunData) (uuids : List String)
    (obsOf : String → Option String) : RunData × List String :=
  match uuids with
  | [] => (d, [])
  | u :: rest =>
    let step := inatDownloadLoop (inatFetchStep d u (obsOf u)) rest obsOf
    (step.1, u :: step.2)

/-- The observation-fetch prefix of the legacy iNatPhotoScraper
.download_photos (src/scraper.py lines 139-151). The early return after
the failed-observations append is missing, so the next line subscripts
None and raises TypeError, modelled as Except.error; the in-memory append
of the uuid (line 145) is lost with the process. -/
def legacyFetchStep (d : RunData) (_uuid : String) (obs : Option String) :
    Except String RunData :=
  match obs with
  | none => Except.error "TypeError"
  | some payload => Except.ok { d with observations := d.observations ++ [payload] }

/-- The per-page observation loop of the legacy variant (src/scraper.py
lines 210-213): the TypeError raised by a failed fetch unwinds through
the loop, so the uuids after the failing one are never attempted. -/
def legacyDownloadLoop (d : RunData) (uuids : List String)
    (obsOf : String → Option String) : Except String (RunData × List String) :=
  match uuids with
  | [] => Except.ok (d, [])
  | u :: rest =>
    match legacyFetchStep d u (obsOf u) with
    | Except.error e => Except.error e
    | Except.ok d1 =>
      match legacyDownloadLoop d1 rest obsOf with
      | Except.error e => Except.error e
      | Except.ok (d2, att) => Except.ok (d2, u :: att)

/-- A fresh scraper state: all constructor defaults, no logs bucket. -/
def freshState : ScraperState :=
  { stop_at_page := none, one_page_only := false, hasLogsBucket := false,
    is_large_results := false, resume_from_page := 0,
    resume_from_uuid_index := 0, start_year := none,
    data := emptyData, progress := [] }

/-- Fixture for the duplicate-guard scenario: every page of the run
returns the same uuid list. -/
def c3fetch : Nat → Option (List String) := fun _ => some ["u1", "u2"]

/-- Fixture for the zero-result-year scenario: year 2010 has no
observations, the later years have 450 spread over three pages. -/
def c6s : ScraperState :=
  { freshState with is_large_results := true, start_year := some 2010 }

def c6np : Nat → Nat :=
  fun y => if y = 2010 then get_num_pages 0 200 else get_num_pages 450 200

def c6fetch : Nat → Nat → Option (List String) :=
  fun y p => if y = 2010 then some [] else some ["u" ++ toString p]

/-- Fixture for the one-page-only checkpoint scenario: logs bucket
configured, non-year mode, a single pending page. -/
def c7s : ScraperState :=
  { freshState with
    one_page_only := true, hasLogsBucket := true,
    progress := [("0", ProgressVal.status "pending")] }

def c7sFalse : ScraperState := { c7s with one_page_only := false }

/-- Fixture for the resume-index scenario: two pages of three uuids. -/
def c9fetch : Nat → Option (List String) :=
  fun p => if p = 0 then some ["a", "b", "c"] else some ["d", "e", "f"]

/-- Fixture for the cross-year resume-page scenario: two processed years
of three pages each, one uuid per page. -/
def c10s : ScraperState :=
  { freshState with is_large_results := true, start_year := some 2000 }

def c10np : Nat → Nat := fun _ => 3

def c10fetch : Nat → Nat → Option (List String) :=
  fun y p => some ["y" ++ toString y ++ "p" ++ toString p]

/-- A list with isEmpty false has positive length. -/
theorem length_pos_of_not_isEmpty {α : Type} (l : List α)
    (h : l.isEmpty = false) : 0 < l.length := by
  cases l with
  | nil => simp [List.isEmpty] at h
  | cons a t => simp

/-- Taking from an ascending unit range while below its endpoint yields
the range without the endpoint. -/
theorem range'_takeWhile_bne (n : Nat) : ∀ s : Nat,
    (List.range' s (n + 1)).takeWhile (fun y => y != (s + n)) = List.range' s n := by
  induction n with
  | zero =>
    intro s
    simp [List.range', List.takeWhile]
  | succ n ih =>
    intro s
    have h1 : List.range' s (n + 1 + 1) = s :: List.range' (s + 1) (n + 1) := rfl
    have h2 : List.range' s (n + 1) = s :: List.range' (s + 1) n := rfl
    have hne : (s != s + (n + 1)) = true := by
      simp only [bne_iff_ne, ne_eq]
      omega
    have h3 : s + (n + 1) = (s + 1) + n := by omega
    rw [h1, h2, List.takeWhile_cons, hne]
    simp only [h3, ih (s + 1)]
    simp

/-- Claim C1 (code_bug evidence): the S3 branch of download_photos stores
json.dumps(self.data).encode() as the object body, independent of the
downloaded photo bytes, while the key is md5(photo bytes) plus the
normalized extension; the local branch and the legacy S3 branch store the
photo bytes; and the .jpeg extension normalizes to .jpg. -/
theorem c1_s3_body_bug :
    (∀ (md5hex : List Nat → String) (jsonDumps : RunData → List Nat)
        (d : RunData) (content : List Nat) (suffix : String),
      (inatS3StoredPair md5hex jsonDumps d content suffix).2 = jsonDumps d
      ∧ (inatS3StoredPair md5hex jsonDumps d content suffix).1
          = md5hex content ++ normalizeSuffix suffix)
    ∧ (∀ (md5hex : List Nat → String) (content : List Nat) (suffix : String),
      (localStoredPair md5hex content suffix).2 = content
      ∧ (legacyS3StoredPair md5hex content suffix).2 = content)
    ∧ normalizeSuffix ".jpeg" = ".jpg" :=
  ⟨fun _ _ _ _ _ => ⟨rfl, rfl⟩, fun _ _ _ => ⟨rfl, rfl⟩, by decide⟩

/-- Claim C4 (code_bug evidence): in year mode, the begin path of
check_progress on a pending page writes the in-progress status at the top
level of the record (line 378 indexes by page only), creating an entry
outside the documented layout and leaving the per-year entry pending,
while the mark-as-complete path writes under the year as documented. -/
theorem c4_layout_bug :
    check_progress [("2010", ProgressVal.table [("0", "pending")])]
        (some "2010") "0" false
      = Except.ok (none, [("2010", ProgressVal.table [("0", "pending")]),
          ("0", ProgressVal.status "in-progress")])
    ∧ check_progress [("2010", ProgressVal.table [("0", "pending")])]
        (some "2010") "0" true
      = Except.ok (none, [("2010", ProgressVal.table [("0", "complete")])]) :=
  ⟨rfl, rfl⟩

/-- Claim C5 counterexample: at T = 400 and S = 200 the code computes
400 // 200 + 1 = 3 pages while ceil(400 / 200) = 2, so direct paging does
not produce ceil(T/S) pages for every T and S. -/
theorem c5_counterexample :
    get_num_pages 400 200 = 3 ∧ specCeilPages 400 200 = 2
    ∧ (get_num_pages 400 200 == specCeilPages 400 200) = false := by
  decide

/-- Claim C5 as amended: direct paging produces T // S + 1 pages, which
equals ceil(T/S) exactly when S does not divide T; the scenario T = 450,
S = 200 still gives 3 pages. -/
theorem c5_floor_plus_one (T S : Nat) (hS : 0 < S) :
    get_num_pages T S = T / S + 1
    ∧ (T % S ≠ 0 → get_num_pages T S = specCeilPages T S) := by
  refine ⟨rfl, fun hmod => ?_⟩
  have hrS : T % S < S := Nat.mod_lt T hS
  have hdm := Nat.div_add_mod T S
  have h1 : T + S - 1 = S * (T / S) + (T % S - 1 + S) := by omega
  have h2 : (T % S - 1) / S = 0 := Nat.div_eq_of_lt (by omega)
  unfold get_num_pages specCeilPages
  rw [h1, Nat.mul_add_div hS, Nat.add_div_right _ hS, h2]

/-- Witness for c5_floor_plus_one at the documented scenario. -/
theorem c5_floor_plus_one_witness :
    get_num_pages 450 200 = specCeilPages 450 200 ∧ get_num_pages 450 200 = 3 :=
  ⟨(c5_floor_plus_one 450 200 (by decide)).2 (by decide), by decide⟩

/-- Claim C2 counterexample: with start_year = 2010 and end_year = 2012
the year loop body runs only for 2010 and 2011; the final year 2012 is
never visited because the loop breaks on reaching it. -/
theorem c2_counterexample :
    runYears 2010 2012 = [2010, 2011]
    ∧ (runYears 2010 2012).contains 2012 = false := by
  decide

/-- Claim C2 as amended: when year partitioning is active, exactly the
years of the half-open range from start_year up to but excluding end_year
are visited; end_year itself is never processed. -/
theorem c2_end_year_excluded (s e : Nat) (h : s ≤ e) :
    runYears s e = List.range' s (e - s) ∧ e ∉ runYears s e := by
  obtain ⟨n, rfl⟩ : ∃ n, e = s + n := ⟨e - s, by omega⟩
  have h1 : s + n + 1 - s = n + 1 := by omega
  have h2 : s + n - s = n := by omega
  have h3 : runYears s (s + n) = List.range' s n := by
    unfold runYears
    rw [h1, range'_takeWhile_bne]
  refine ⟨by rw [h3, h2], ?_⟩
  rw [h3]
  intro hmem
  rw [List.mem_range'_1] at hmem
  omega

/-- Witness for c2_end_year_excluded at the 2010-2012 scenario. -/
theorem c2_end_year_excluded_witness :
    runYears 2010 2012 = List.range' 2010 2 ∧ 2012 ∉ runYears 2010 2012 :=
  c2_end_year_excluded 2010 2012 (by decide)

/-- Claim C3 (code_bug evidence): the duplicate-page guard never fires.
The uuids accumulator only ever holds string entries because it is
extended elementwise, and the Python membership test compares the whole
uuid list against those strings, so it is always False; concretely, a
second page returning exactly the uuid list of the first page is
downloaded again instead of being skipped. -/
theorem c3_dead_dup_guard :
    (∀ (us ts : List String),
      pyIn (UuidsEntry.strList us) (ts.map UuidsEntry.str) = false)
    ∧ stepsView (runSmall freshState 2 c3fetch)
      = some [(0, [(0, "u1"), (1, "u2")]), (1, [(1, "u2")])] := by
  refine ⟨fun us ts => ?_, by decide⟩
  induction ts with
  | nil => rfl
  | cons t ts ih => simp [pyIn, entryEq]

/-- Claim C7 (code_bug evidence): with the logs bucket configured and a
pending page holding one uuid, a one_page_only parse returns 1 with the
page left in-progress and no mark-as-complete write, while the same parse
with one_page_only off marks the page complete in the same call. -/
theorem c7_one_page_no_complete :
    (Except.toOption (parse c7s 0 none (some ["u1"]))).map
        (fun r => (r.retCode, r.markedComplete, r.state.progress))
      = some (some 1, false, [("0", ProgressVal.status "in-progress")])
    ∧ (Except.toOption (parse c7sFalse 0 none (some ["u1"]))).map
        (fun r => (r.retCode, r.markedComplete, r.state.progress))
      = some (none, true, [("0", ProgressVal.status "complete")]) :=
  ⟨rfl, rfl⟩

/-- Claim C8 (code_bug evidence): in the current variant every uuid of a
page is attempted and a failed observation fetch only appends the request
url and the uuid to the failed observations ledger; in the legacy variant
the missing early return makes a failed fetch raise TypeError, so the
loop over a page with a failing first uuid aborts and the second uuid is
never attempted. -/
theorem c8_fetch_failure :
    (∀ (d : RunData) (uuids : List String) (obsOf : String → Option String),
      (inatDownloadLoop d uuids obsOf).2 = uuids)
    ∧ (∀ (d : RunData) (u : String),
      inatFetchStep d u none
        = { d with failed_observations := d.failed_observations ++ [obsUrl u, u] })
    ∧ legacyDownloadLoop emptyData ["u1", "u2"]
        (fun u => if u = "u1" then none else some "payload")
      = Except.error "TypeError" := by
  refine ⟨fun d uuids obsOf => ?_, fun _ _ => rfl, rfl⟩
  induction uuids generalizing d with
  | nil => rfl
  | cons u rest ih => simp [inatDownloadLoop, ih]

theorem afterLoop_one_page_only (s3 : ScraperState) (l : List String) :
    (afterLoop s3 l).one_page_only = s3.one_page_only := by
  unfold afterLoop
  split <;> rfl

theorem afterLoop_hasLogsBucket (s3 : ScraperState) (l : List String) :
    (afterLoop s3 l).hasLogsBucket = s3.hasLogsBucket := by
  unfold afterLoop
  split <;> rfl

theorem afterLoop_resume_from_page (s3 : ScraperState) (l : List String) :
    (afterLoop s3 l).resume_from_page = s3.resume_from_page := by
  unfold afterLoop
  split <;> rfl

theorem afterLoop_rfi_le (s3 : ScraperState) (l : List String) :
    s3.resume_from_uuid_index ≤ (afterLoop s3 l).resume_from_uuid_index := by
  unfold afterLoop
  split
  · exact Nat.le_refl _
  · next h =>
    have hlen := length_pos_of_not_isEmpty l (by
      cases hb : l.isEmpty
      · rfl
      · exact absurd hb h)
    show s3.resume_from_uuid_index ≤ s3.resume_from_uuid_index + l.length - 1
    omega

/-- The inl result of parseBegin is the early-return skip: state changed
only in the progress record, retCode 1 under one_page_only. -/
theorem parseBegin_inl_cases (s1 : ScraperState) (page : Nat) (r : ParseResult)
    (h : parseBegin s1 page = Except.ok (Sum.inl r)) :
    ∃ p1, r = mkRes { s1 with progress := p1 }
      (if s1.one_page_only then some 1 else none) [] false := by
  unfold parseBegin at h
  split at h
  · split at h
    · exact absurd h (by simp)
    · simp only [Except.ok.injEq, Sum.inl.injEq] at h
      exact ⟨_, h.symm⟩
    · exact absurd h (by simp)
  · exact absurd h (by simp)

/-- The inr result of parseBegin is the continue case: the state changed
only in the progress record. -/
theorem parseBegin_inr_cases (s1 : ScraperState) (page : Nat) (s2 : ScraperState)
    (h : parseBegin s1 page = Except.ok (Sum.inr s2)) :
    ∃ p1, s2 = { s1 with progress := p1 } := by
  unfold parseBegin at h
  split at h
  · split at h
    · exact absurd h (by simp)
    · exact absurd h (by simp)
    · simp only [Except.ok.injEq, Sum.inr.injEq] at h
      exact ⟨_, h.symm⟩
  · simp only [Except.ok.injEq, Sum.inr.injEq] at h
    exact ⟨s1.progress, h.symm⟩

/-- A successful parseLoop keeps resume_from_page and never decreases
resume_from_uuid_index. -/
theorem parseLoop_fields (s3 : ScraperState) (page : Nat) (uuids : List String)
    (r : ParseResult) (h : parseLoop s3 page uuids = Except.ok r) :
    r.state.resume_from_page = s3.resume_from_page
    ∧ s3.resume_from_uuid_index ≤ r.state.resume_from_uuid_index := by
  simp only [parseLoop] at h
  split at h
  · simp only [Except.ok.injEq] at h
    subst h
    exact ⟨afterLoop_resume_from_page _ _, afterLoop_rfi_le _ _⟩
  · split at h
    · split at h
      · exact absurd h (by simp)
      · simp only [Except.ok.injEq] at h
        subst h
        exact ⟨afterLoop_resume_from_page _ _, afterLoop_rfi_le _ _⟩
    · simp only [Except.ok.injEq] at h
      subst h
      exact ⟨afterLoop_resume_from_page _ _, afterLoop_rfi_le _ _⟩

/-- A successful parseBody keeps resume_from_page and never decreases
resume_from_uuid_index. -/
theorem parseBody_fields (s2 : ScraperState) (page : Nat)
    (fetch : Option (List String)) (r : ParseResult)
    (h : parseBody s2 page fetch = Except.ok r) :
    r.state.resume_from_page = s2.resume_from_page
    ∧ s2.resume_from_uuid_index ≤ r.state.resume_from_uuid_index := by
  unfold parseBody at h
  split at h
  · simp only [Except.ok.injEq] at h
    subst h
    exact ⟨rfl, Nat.le_refl _⟩
  · split at h
    · simp only [Except.ok.injEq] at h
      subst h
      exact ⟨rfl, Nat.le_refl _⟩
    · split at h
      · simp only [Except.ok.injEq] at h
        subst h
        exact ⟨rfl, Nat.le_refl _⟩
      · next uuids _ _ =>
        exact parseLoop_fields (accUuids s2 uuids) page uuids r h

/-- A successful parse run for a page sets resume_from_page to that page
(line 453) unless the stop_at_page early return fired. -/
theorem parse_sets_resume_from_page (s : ScraperState) (page : Nat)
    (year : Option Nat) (fetch : Option (List String)) (r : ParseResult)
    (hstop : s.stop_at_page = none) (h : parse s page year fetch = Except.ok r) :
    r.state.resume_from_page = page := by
  unfold parse at h
  rw [hstop] at h
  simp only [reduceCtorEq, if_false] at h
  rcases hB : parseBegin (setCursor s page year) page with e | x
  · rw [hB] at h
    exact absurd h (by simp)
  · rw [hB] at h
    cases x with
    | inl r0 =>
      simp only [Except.ok.injEq] at h
      subst h
      obtain ⟨p1, hr0⟩ := parseBegin_inl_cases _ _ _ hB
      subst hr0
      rfl
    | inr s2 =>
      obtain ⟨p1, hs2⟩ := parseBegin_inr_cases _ _ _ hB
      have hf := (parseBody_fields _ _ _ _ h).1
      rw [hf, hs2]
      rfl

/-- A successful parse never decreases resume_from_uuid_index. -/
theorem parse_rfi_le (s : ScraperState) (page : Nat) (year : Option Nat)
    (fetch : Option (List String)) (r : ParseResult)
    (h : parse s page year fetch = Except.ok r) :
    s.resume_from_uuid_index ≤ r.state.resume_from_uuid_index := by
  unfold parse at h
  split at h
  · simp only [Except.ok.injEq] at h
    subst h
    exact Nat.le_refl _
  · rcases hB : parseBegin (setCursor s page year) page with e | x
    · rw [hB] at h
      exact absurd h (by simp)
    · rw [hB] at h
      cases x with
      | inl r0 =>
        simp only [Except.ok.injEq] at h
        subst h
        obtain ⟨p1, hr0⟩ := parseBegin_inl_cases _ _ _ hB
        subst hr0
        exact Nat.le_refl _
      | inr s2 =>
        obtain ⟨p1, hs2⟩ := parseBegin_inr_cases _ _ _ hB
        have hf := (parseBody_fields _ _ _ _ h).2
        rw [hs2] at hf
        exact hf

/-- Claim C6 counterexample: a year whose scoped total-count query returns
zero results resolves to get_num_pages 0 200 = 1 page, not zero, and that
page is processed: in the 2010-2012 run with zero observations in 2010,
page 0 of 2010 appears in the trace. -/
theorem c6_counterexample :
    get_num_pages 0 200 = 1 ∧ (get_num_pages 0 200 == 0) = false
    ∧ (Except.toOption (runLarge c6s 2010 2012 c6np c6fetch)).map
        (fun x => x.2.map (fun st => (st.year, st.page)))
      = some [(some 2010, 0), (some 2011, 0), (some 2011, 1), (some 2011, 2)] := by
  refine ⟨rfl, rfl, ?_⟩
  rfl

/-- Claim C6 as amended: a zero-result year resolves to one page, namely
0 // S + 1; parsing that page with an empty observation list records the
page in the failed observations ledger, performs no downloads and raises
no exception; and the crawl then advances to the next year, as the
concrete 2010-2012 trace shows. -/
theorem c6_zero_year :
    (∀ S : Nat, get_num_pages 0 S = 1)
    ∧ (∀ (s : ScraperState) (page : Nat) (year : Option Nat),
        s.stop_at_page = none → s.hasLogsBucket = false → s.one_page_only = false →
        parse s page year (some [])
          = Except.ok (mkRes (addFailedPage (setCursor s page year) page) none [] false))
    ∧ (Except.toOption (runLarge c6s 2010 2012 c6np c6fetch)).map
        (fun x => x.2.map (fun st => (st.year, st.page, st.downloads)))
      = some [(some 2010, 0, []), (some 2011, 0, [(0, "u0")]),
          (some 2011, 1, [(0, "u1")]), (some 2011, 2, [(0, "u2")])] := by
  refine ⟨fun S => by simp [get_num_pages], ?_, by rfl⟩
  intro s page year h1 h2 h3
  simp [parse, parseBegin, parseBody, setCursor, addFailedPage, h1, h2, h3]

/-- Witness for c6_zero_year: the empty-page parse at a concrete state. -/
theorem c6_zero_year_witness :
    parse c6s 0 (some 2010) (some [])
      = Except.ok (mkRes (addFailedPage (setCursor c6s 0 (some 2010)) 0) none [] false) :=
  c6_zero_year.2.1 c6s 0 (some 2010) rfl rfl rfl

/-- Claim C9: in a successful parse the resume_from_uuid_index is never
decreased, never reset to 0; the observation loop of a page starts at the
incoming resume_from_uuid_index, downloading exactly the slice from that
index on; and in the concrete two-page run the second page starts at
index 2, the last index reached on the first page, so its two leading
observations are silently skipped. -/
theorem c9_index_never_reset :
    (∀ (s : ScraperState) (page : Nat) (year : Option Nat)
        (fetch : Option (List String)),
      Option.all
        (fun r => decide (s.resume_from_uuid_index ≤ r.state.resume_from_uuid_index))
        (Except.toOption (parse s page year fetch)) = true)
    ∧ (∀ (s : ScraperState) (page : Nat) (year : Option Nat) (us : List String),
        s.stop_at_page = none → s.hasLogsBucket = false → s.one_page_only = false →
        pyIn (UuidsEntry.strList us) s.data.uuids = false → us ≠ [] →
        (Except.toOption (parse s page year (some us))).map ParseResult.downloads
          = some (List.enumFrom s.resume_from_uuid_index
              (us.drop s.resume_from_uuid_index)))
    ∧ stepsView (runSmall freshState 2 c9fetch)
      = some [(0, [(0, "a"), (1, "b"), (2, "c")]), (1, [(2, "f")])] := by
  refine ⟨?_, ?_, by rfl⟩
  · intro s page year fetch
    cases hE : parse s page year fetch with
    | error e => simp [Except.toOption]
    | ok r =>
      have hle := parse_rfi_le s page year fetch r hE
      simp [Except.toOption, hle]
  · intro s page year us h1 h2 h3 h5 h4
    simp [parse, parseBegin, parseBody, parseLoop, setCursor, accUuids, mkRes,
      afterLoop_one_page_only, afterLoop_hasLogsBucket, Except.toOption,
      h1, h2, h3, h5, h4]

/-- Witness for c9_index_never_reset: the slice equation at a concrete
state whose resume index is 1. -/
theorem c9_index_never_reset_witness :
    (Except.toOption (parse { freshState with resume_from_uuid_index := 1 }
        3 none (some ["a", "b"]))).map ParseResult.downloads
      = some (List.enumFrom
          ({ freshState with resume_from_uuid_index := 1 }).resume_from_uuid_index
          (["a", "b"].drop
            ({ freshState with resume_from_uuid_index := 1 }).resume_from_uuid_index)) :=
  c9_index_never_reset.2.1 { freshState with resume_from_uuid_index := 1 }
    3 none ["a", "b"] rfl rfl rfl rfl (by decide)

/-- Claim C10: every successful parse for a page sets resume_from_page to
that page; each year of the partitioned loop slices its page range by the
current resume_from_page cursor; and in the concrete two-year run with
three pages per year, the second year starts at page 2, the last page
processed in the first year, silently skipping its pages 0 and 1. -/
theorem c10_resume_page_carries :
    (∀ (s : ScraperState) (page : Nat) (year : Option Nat)
        (fetch : Option (List String)),
      s.stop_at_page = none →
      Option.all (fun r => r.state.resume_from_page == page)
        (Except.toOption (parse s page year fetch)) = true)
    ∧ (∀ (s : ScraperState) (y : Nat) (numPagesOf : Nat → Nat)
        (fetch : Nat → Nat → Option (List String)),
      runYearStep s y numPagesOf fetch
        = runPages s (some y) ((List.range (numPagesOf y)).drop s.resume_from_page)
            (fetch y))
    ∧ (Except.toOption (runLarge c10s 2000 2002 c10np c10fetch)).map
        (fun x => x.2.map (fun st => (st.year, st.page)))
      = some [(some 2000, 0), (some 2000, 1), (some 2000, 2), (some 2001, 2)] := by
  refine ⟨?_, fun _ _ _ _ => rfl, by rfl⟩
  intro s page year fetch hstop
  cases hE : parse s page year fetch with
  | error e => simp [Except.toOption]
  | ok r =>
    have hrp := parse_sets_resume_from_page s page year fetch r hstop hE
    simp [Except.toOption, hrp]

/-- Witness for c10_resume_page_carries at a concrete page. -/
theorem c10_resume_page_carries_witness :
    Option.all (fun r => r.state.resume_from_page == 5)
      (Except.toOption (parse freshState 5 none (some ["u"]))) = true :=
  c10_resume_page_carries.1 freshState 5 none (some ["u"]) rfl
